import Mathlib

/-!
Shallow embedding of the lock-coordination core of the weeklyreport
repository: `src/core/lock_manager.py` (class `LockManager`) and the
write-gate portion of `src/database/db_manager.py` (class
`DatabaseManager`).

Timestamps are modelled as integers (`Int`); the SQLite `sessions`
table is a list of rows; the lock marker file is a boolean (its content
is diagnostic text, never parsed back, so only existence is modelled).
Fallible I/O (queries that may raise, inserts that may fail, deletes
that may fail) is modelled by explicit fault oracles passed as
arguments, mirroring the `try/except` structure of the Python source.
The lock-lost callback is modelled by an event log recording, at each
invocation, the argument passed and a snapshot of the local holding
state visible to the callback, plus whether the callback raised.
-/

namespace WeeklyLock

/-- One row of the `sessions` table (schema in
`DatabaseManager._ensure_database_exists`). -/
structure Session where
  sid : Nat
  user_id : Nat
  username : String
  machine_name : String
  is_write_lock : Bool
  session_start : Int
  last_heartbeat : Int
deriving Repr, DecidableEq

/-- One row of the `users` table. The stored row may carry an
`is_admin` column (some deployments add it); what matters is which
columns `get_user_by_id` projects out. -/
structure UserRow where
  uid : Nat
  username : String
  display_name : String
  is_active : Bool
  is_admin : Bool
  password_hash : Option String := none
deriving Repr, DecidableEq

/-- The shared SQLite store state used by the lock manager. -/
structure DBState where
  sessions : List Session
  users : List UserRow
  nextSessionId : Nat
deriving Repr, DecidableEq

/-- A recorded invocation of the lock-lost callback: the argument
(old session id) and the local holding state the callback observes at
the moment it runs, plus whether the callback itself raised. -/
structure CbEvent where
  arg : Option Nat
  seen_has_write_lock : Bool
  seen_session_id : Option Nat
  cb_raised : Bool
deriving Repr, DecidableEq

/-- Process-local fields of `LockManager` (set in `__init__` and
mutated by the protocol methods). -/
structure LMState where
  current_session_id : Option Nat
  current_user_id : Option Nat
  current_username : Option String
  has_write_lock : Bool
  heartbeat_running : Bool
  callback_set : Bool
  machine_name : String
deriving Repr, DecidableEq

/-- Whole-world state for one lock manager: shared store, lock marker
file existence, local state, and the callback event log. -/
structure World where
  db : DBState
  lock_file_exists : Bool
  lm : LMState
  events : List CbEvent
deriving Repr, DecidableEq

/-- Result type of `acquire_write_lock`: Python returns
`(success, Optional[error_message])`. -/
inductive AcqResult
| granted
| denied (msg : String)
deriving Repr, DecidableEq

/-- A Python value as stored in a row dict (only what the lock code
inspects: truthiness and string content). -/
inductive PyVal
| vInt (n : Int)
| vStr (s : String)
| vNone
deriving Repr, DecidableEq

/-- Python truthiness of a `PyVal`. -/
def PyVal.truthy : PyVal → Bool
| PyVal.vInt n => n != 0
| PyVal.vStr s => s != ""
| PyVal.vNone => false

/-- `dict.get(key)`: the stored value, or `None` when the key is
absent. -/
def dictGet (d : List (String × PyVal)) (k : String) : PyVal :=
  match d.find? (fun kv => kv.1 == k) with
  | some kv => kv.2
  | none => PyVal.vNone

/-- `DatabaseManager.get_user_by_id`: `SELECT id, username,
display_name FROM users WHERE id = ? AND is_active = 1`, returned as a
row dict. Only the three selected columns appear in the dict. -/
def get_user_by_id (db : DBState) (user_id : Nat) : Option (List (String × PyVal)) :=
  match db.users.find? (fun u => u.uid == user_id && u.is_active) with
  | some u => some [("id", PyVal.vInt u.uid), ("username", PyVal.vStr u.username),
                    ("display_name", PyVal.vStr u.display_name)]
  | none => none

/-- Staleness test from `_cleanup_stale_locks`: a write-lock session
whose `last_heartbeat` is older than `now - timeout`. -/
def isStale (now timeout : Int) (s : Session) : Bool :=
  s.is_write_lock && s.last_heartbeat < now - timeout

/-- `LockManager._cleanup_stale_locks`: select the stale write-lock
rows; if any exist, delete them and also remove the lock file if
present. A storage fault makes the whole sweep a logged no-op. -/
def cleanup_stale_locks (fault : Bool) (now timeout : Int) (w : World) : World :=
  if fault then w
  else
    let stale := w.db.sessions.filter (isStale now timeout)
    if stale.isEmpty then w
    else
      { w with
        db := { w.db with sessions := w.db.sessions.filter (fun s => !isStale now timeout s) }
        lock_file_exists := false }

/-- Accumulator for `ORDER BY session_start DESC LIMIT 1`. -/
def pickLatest (acc : Option Session) (s : Session) : Option Session :=
  match acc with
  | none => some s
  | some t => if s.session_start > t.session_start then some s else some t

/-- `LockManager._get_current_lock_holder`: most recent write-lock
session row, or `None`; any storage error is swallowed and reported as
`None`. -/
def get_current_lock_holder (fault : Bool) (db : DBState) : Option Session :=
  if fault then none
  else (db.sessions.filter (fun s => s.is_write_lock)).foldl pickLatest none

/-- `LockManager.acquire_write_lock`: sweep stale locks, check for a
holder, check/create the lock file, insert the session row, then set
local state and start the heartbeat. `createErr`/`insertErr` model the
exceptions the two `try` blocks can catch. -/
def acquire_write_lock (cleanupFault holderFault : Bool) (createErr insertErr : Option String)
    (now timeout : Int) (user_id : Nat) (username : String) (w : World) : World × AcqResult :=
  let w1 := cleanup_stale_locks cleanupFault now timeout w
  match get_current_lock_holder holderFault w1.db with
  | some h =>
      (w1, AcqResult.denied ("Database is locked by " ++ h.username ++ " on " ++ h.machine_name))
  | none =>
    if w1.lock_file_exists then
      (w1, AcqResult.denied "Lock file already exists")
    else
      match createErr with
      | some e => (w1, AcqResult.denied ("Failed to create lock file: " ++ e))
      | none =>
        let w2 := { w1 with lock_file_exists := true }
        match insertErr with
        | some e =>
            ({ w2 with lock_file_exists := false },
             AcqResult.denied ("Failed to create database session: " ++ e))
        | none =>
          let sid := w2.db.nextSessionId
          let row : Session :=
            { sid := sid, user_id := user_id, username := username,
              machine_name := w2.lm.machine_name, is_write_lock := true,
              session_start := now, last_heartbeat := now }
          let w3 :=
            { w2 with
              db := { w2.db with sessions := w2.db.sessions ++ [row], nextSessionId := sid + 1 },
              lm := { w2.lm with
                        current_session_id := some sid,
                        current_user_id := some user_id,
                        current_username := some username,
                        has_write_lock := true,
                        heartbeat_running := true } }
          (w3, AcqResult.granted)

/-- `LockManager.release_write_lock`: no-op when not holding; otherwise
stop the heartbeat, best-effort remove the file and session row
(failures are printed and swallowed), then clear local state. -/
def release_write_lock (fileFault dbFault : Bool) (w : World) : World :=
  if !w.lm.has_write_lock then w
  else
    let w1 := { w with lm := { w.lm with heartbeat_running := false } }
    let w2 := if fileFault then w1 else { w1 with lock_file_exists := false }
    let w3 :=
      match w2.lm.current_session_id with
      | some sid =>
        if dbFault then w2
        else { w2 with
               db := { w2.db with sessions := w2.db.sessions.filter (fun s => !(s.sid == sid)) } }
      | none => w2
    { w3 with lm := { w3.lm with
                        has_write_lock := false,
                        current_session_id := none,
                        current_user_id := none,
                        current_username := none } }

/-- The `SELECT id FROM sessions WHERE id = ? AND is_write_lock = 1`
existence check used by `verify_write_lock` and `_update_heartbeat`. -/
def sessionRowExists (db : DBState) (sid : Nat) : Bool :=
  db.sessions.any (fun s => s.sid == sid && s.is_write_lock)

/-- `LockManager._handle_lock_lost`: stop the heartbeat, clear local
holding state, best-effort remove the lock file, then invoke the
registered callback with the superseded session id, catching any
exception it raises. -/
def handle_lock_lost (cbRaises : Bool) (w : World) : World :=
  let old_session_id := w.lm.current_session_id
  let lm1 := { w.lm with
    heartbeat_running := false,
    has_write_lock := false,
    current_session_id := none,
    current_user_id := none,
    current_username := none }
  let w1 := { w with lm := lm1, lock_file_exists := false }
  if lm1.callback_set then
    { w1 with events := w1.events ++
        [{ arg := old_session_id, seen_has_write_lock := lm1.has_write_lock,
           seen_session_id := lm1.current_session_id, cb_raised := cbRaises }] }
  else w1

/-- `LockManager.verify_write_lock`: false when not locally holding;
otherwise re-query the session row by id, returning true when it still
exists and invoking `_handle_lock_lost` when it is gone. A query fault
is caught and reported as false. -/
def verify_write_lock (queryFault cbRaises : Bool) (w : World) : World × Bool :=
  if !w.lm.has_write_lock then (w, false)
  else
    match w.lm.current_session_id with
    | none => (w, false)
    | some sid =>
      if queryFault then (w, false)
      else if sessionRowExists w.db sid then (w, true)
      else (handle_lock_lost cbRaises w, false)

/-- `LockManager._update_heartbeat`: no-op without a session id; check
the owned row still exists, invoking `_handle_lock_lost` when it is
gone, otherwise refresh `last_heartbeat`. Storage faults are logged and
swallowed. -/
def update_heartbeat (queryFault cbRaises : Bool) (now : Int) (w : World) : World :=
  match w.lm.current_session_id with
  | none => w
  | some sid =>
    if queryFault then w
    else if sessionRowExists w.db sid then
      { w with db := { w.db with sessions := w.db.sessions.map (fun s =>
          if s.sid == sid then { s with last_heartbeat := now } else s) } }
    else handle_lock_lost cbRaises w

/-- `LockManager.check_write_permission`: true when locally holding;
otherwise sweep stale locks and report the current holder if one
exists. -/
def check_write_permission (cleanupFault holderFault : Bool) (now timeout : Int) (w : World) :
    World × (Bool × Option String) :=
  if w.lm.has_write_lock then (w, (true, none))
  else
    let w1 := cleanup_stale_locks cleanupFault now timeout w
    match get_current_lock_holder holderFault w1.db with
    | some h => (w1, (false, some (h.username ++ " on " ++ h.machine_name)))
    | none => (w1, (true, none))

/-- `LockManager.force_unlock`, parameterised by the row dict the
injected `db_manager.get_user_by_id` lookup returned for
`admin_user_id`: deny unless `user.get('is_admin')` is truthy, then
remove the lock file if present and delete all write-lock session rows,
reporting what was removed. -/
def force_unlock (userDict : Option (List (String × PyVal))) (w : World) :
    World × (Bool × String) :=
  match userDict with
  | none => (w, (false, "Only administrators can force unlock"))
  | some user =>
    if !(dictGet user "is_admin").truthy then
      (w, (false, "Only administrators can force unlock"))
    else
      let fileItems := if w.lock_file_exists then ["file lock"] else []
      let w1 := if w.lock_file_exists then { w with lock_file_exists := false } else w
      let deleted := (w1.db.sessions.filter (fun s => s.is_write_lock)).length
      let w2 := { w1 with
        db := { w1.db with sessions := w1.db.sessions.filter (fun s => !s.is_write_lock) } }
      let items := fileItems ++
        (if deleted > 0 then [toString deleted ++ " database session(s)"] else [])
      if items.isEmpty then (w2, (true, "No locks found to remove"))
      else (w2, (true, "Removed: " ++ String.intercalate ", " items))

/-- `force_unlock` as shipped: the admin lookup is
`DatabaseManager.get_user_by_id` on the same store. -/
def force_unlock_shipped (admin_user_id : Nat) (w : World) : World × (Bool × String) :=
  force_unlock (get_user_by_id w.db admin_user_id) w

/-! ### Write gate (`DatabaseManager`)

Errors raised by the data layer: the distinguished
`DatabaseWriteError` versus any generic failure. -/

/-- Error taxonomy of the data layer. -/
inductive DBErr
| writeError (msg : String)
| generic (msg : String)
deriving Repr, DecidableEq

/-- Message of the `DatabaseWriteError` raised by
`DatabaseManager._verify_write_permission`. -/
def writeDeniedMsg : String :=
  "Write operation denied: You no longer have write access to the database. " ++
  "Your write lock has been removed (possibly by an administrator)."

/-- A row of the `buildings` table, reduced to the fields the gate
claims mention (identity and a payload). -/
structure Building where
  bid : Nat
  property_name : String
deriving Repr, DecidableEq

/-- A row of the `audit_log` table, reduced to the fields written by
`DatabaseManager._log_audit`. -/
structure AuditEntry where
  user_id : Nat
  action : String
  table_name : String
  record_id : Option Nat
deriving Repr, DecidableEq

/-- State seen by the data layer: the lock world, whether
`set_lock_manager` has been called yet (before that,
`self.lock_manager is None`), and the persisted business data. -/
structure AppWorld where
  lock : World
  lock_manager_attached : Bool
  buildings : List Building
  nextBuildingId : Nat
  audit_log : List AuditEntry
deriving Repr, DecidableEq

/-- `DatabaseManager._verify_write_permission`: allow unconditionally
while no lock manager is attached (bootstrap); otherwise call
`verify_write_lock` and raise `DatabaseWriteError` when it returns
false. -/
def verify_write_permission (queryFault cbRaises : Bool) (aw : AppWorld) :
    AppWorld × Except DBErr Unit :=
  if !aw.lock_manager_attached then (aw, Except.ok ())
  else
    let r := verify_write_lock queryFault cbRaises aw.lock
    if r.2 then ({ aw with lock := r.1 }, Except.ok ())
    else ({ aw with lock := r.1 }, Except.error (DBErr.writeError writeDeniedMsg))

/-- `DatabaseManager.create_building`: verify the write permission
first, then insert the row and the audit entry. -/
def create_building (queryFault cbRaises : Bool) (name : String) (user_id : Nat)
    (aw : AppWorld) : AppWorld × Except DBErr Nat :=
  match verify_write_permission queryFault cbRaises aw with
  | (aw1, Except.error e) => (aw1, Except.error e)
  | (aw1, Except.ok _) =>
    let bid := aw1.nextBuildingId
    let aw2 := { aw1 with
      buildings := aw1.buildings ++ [{ bid := bid, property_name := name }],
      nextBuildingId := bid + 1,
      audit_log := aw1.audit_log ++
        [{ user_id := user_id, action := "CREATE",
           table_name := "buildings", record_id := some bid }] }
    (aw2, Except.ok bid)

/-- `DatabaseManager.delete_building`: verify the write permission
first, then delete the row and insert the audit entry. -/
def delete_building (queryFault cbRaises : Bool) (building_id : Nat) (user_id : Nat)
    (aw : AppWorld) : AppWorld × Except DBErr Unit :=
  match verify_write_permission queryFault cbRaises aw with
  | (aw1, Except.error e) => (aw1, Except.error e)
  | (aw1, Except.ok _) =>
    let aw2 := { aw1 with
      buildings := aw1.buildings.filter (fun b => !(b.bid == building_id)),
      audit_log := aw1.audit_log ++
        [{ user_id := user_id, action := "DELETE",
           table_name := "buildings", record_id := some building_id }] }
    (aw2, Except.ok ())

/-- `DatabaseManager.set_user_password`: hash the password (the hash
value is passed in opaquely) and `UPDATE users SET password_hash = ?
WHERE id = ?`, returning whether a row was updated. Note: unlike the
CRUD entry points, this method never calls
`_verify_write_permission`. -/
def set_user_password (hashed : String) (user_id : Nat) (aw : AppWorld) :
    AppWorld × Bool :=
  ({ aw with
      lock := { aw.lock with
                  db := { aw.lock.db with
                            users := aw.lock.db.users.map (fun u =>
                              if u.uid == user_id then { u with password_hash := some hashed }
                              else u) } } },
   aw.lock.db.users.any (fun u => u.uid == user_id))

/-! ### Fine-grained racing model of `acquire_write_lock`

`acquire_write_lock` performs its file-existence check
(`os.path.exists`) and its file creation (`open(path, 'w')`, which
succeeds whether or not the file already exists) as separate,
non-atomic operations. To settle the race claim, each acquiring process
is split at those boundaries; the shared store and lock file are common
state, the local `LockManager` fields are per process. -/

/-- Program counter of one in-flight `acquire_write_lock` call. -/
inductive APc
| pcStart
| pcCheckedHolder
| pcCheckedFile
| pcDone (granted : Bool)
deriving Repr, DecidableEq

/-- State shared between racing processes: the store and the lock
file. -/
structure Shared where
  db : DBState
  lock_file_exists : Bool
deriving Repr, DecidableEq

/-- Per-process state of one racing caller. -/
structure ProcState where
  pc : APc
  user_id : Nat
  username : String
  machine_name : String
  has_write_lock : Bool
  current_session_id : Option Nat
deriving Repr, DecidableEq

/-- One step of one process's `acquire_write_lock`, faithful to the
source order: stale sweep plus holder query; then the
`os.path.exists` check; then `open(path, 'w')` (which does not fail on
an existing file) plus the session insert. -/
def procStep (now timeout : Int) (sh : Shared) (p : ProcState) : Shared × ProcState :=
  match p.pc with
  | APc.pcStart =>
    let stale := sh.db.sessions.filter (isStale now timeout)
    let sh1 := if stale.isEmpty then sh
      else { db := { sh.db with
               sessions := sh.db.sessions.filter (fun s => !isStale now timeout s) },
             lock_file_exists := false }
    match get_current_lock_holder false sh1.db with
    | some _ => (sh1, { p with pc := APc.pcDone false })
    | none => (sh1, { p with pc := APc.pcCheckedHolder })
  | APc.pcCheckedHolder =>
    if sh.lock_file_exists then (sh, { p with pc := APc.pcDone false })
    else (sh, { p with pc := APc.pcCheckedFile })
  | APc.pcCheckedFile =>
    let sh1 := { sh with lock_file_exists := true }
    let sid := sh1.db.nextSessionId
    let row : Session :=
      { sid := sid, user_id := p.user_id, username := p.username,
        machine_name := p.machine_name, is_write_lock := true,
        session_start := now, last_heartbeat := now }
    let sh2 := { sh1 with db := { sh1.db with
        sessions := sh1.db.sessions ++ [row], nextSessionId := sid + 1 } }
    (sh2, { p with
              pc := APc.pcDone true,
              has_write_lock := true,
              current_session_id := some sid })
  | APc.pcDone _ => (sh, p)

/-- Whole race state: shared store plus all racing processes. -/
structure RaceState where
  shared : Shared
  procs : List ProcState
deriving Repr, DecidableEq

/-- Run the step of the scheduled process (out-of-range indices do
nothing). -/
def raceStep (now timeout : Int) (st : RaceState) (i : Nat) : RaceState :=
  match st.procs.get? i with
  | none => st
  | some p =>
    let r := procStep now timeout st.shared p
    { shared := r.1, procs := st.procs.set i r.2 }

/-- Run a schedule (a list of process indices) from a race state. -/
def runSchedule (now timeout : Int) (sched : List Nat) (st : RaceState) : RaceState :=
  sched.foldl (raceStep now timeout) st

/-- A process that has not started its acquire yet. -/
def initProc (uid : Nat) (uname machine : String) : ProcState :=
  { pc := APc.pcStart, user_id := uid, username := uname, machine_name := machine,
    has_write_lock := false, current_session_id := none }

/-- Unlocked initial shared state: empty sessions table, no lock
file. -/
def emptyShared : Shared :=
  { db := { sessions := [], users := [], nextSessionId := 1 }, lock_file_exists := false }

/-- Number of processes whose acquire returned `Granted`. -/
def grantedCount (st : RaceState) : Nat :=
  (st.procs.filter (fun p => p.pc == APc.pcDone true)).length

/-- Five racing callers, none started. -/
def raceInit5 : RaceState :=
  { shared := emptyShared,
    procs := [initProc 1 "u1" "m1", initProc 2 "u2" "m2", initProc 3 "u3" "m3",
              initProc 4 "u4" "m4", initProc 5 "u5" "m5"] }

/-- The interleaving in which all five callers pass the holder query,
then all five pass the file-existence check, then all five create the
file and insert their row. -/
def badSchedule : List Nat :=
  [0, 1, 2, 3, 4, 0, 1, 2, 3, 4, 0, 1, 2, 3, 4]

/-- Serialized execution: each process runs its three acquire steps to
completion before the next process starts. -/
def runAcquireSeq (now timeout : Int) (sh : Shared) (ps : List ProcState) :
    Shared × List ProcState :=
  match ps with
  | [] => (sh, [])
  | p :: rest =>
    let r1 := procStep now timeout sh p
    let r2 := procStep now timeout r1.1 r1.2
    let r3 := procStep now timeout r2.1 r2.2
    let rr := runAcquireSeq now timeout r3.1 rest
    (rr.1, r3.2 :: rr.2)

/-- Number of processes in a list whose acquire returned `Granted`. -/
def grantedCountList (ps : List ProcState) : Nat :=
  (ps.filter (fun p => p.pc == APc.pcDone true)).length

/-! ### Sample states used by the witness theorems -/

/-- Local state of a manager that has never acquired. -/
def lmIdle : LMState :=
  { current_session_id := none, current_user_id := none, current_username := none,
    has_write_lock := false, heartbeat_running := false, callback_set := false,
    machine_name := "M1" }

/-- Local state of a manager holding session 1 for alice, with the
lock-lost callback registered. -/
def lmHolding : LMState :=
  { current_session_id := some 1, current_user_id := some 7, current_username := some "alice",
    has_write_lock := true, heartbeat_running := true, callback_set := true,
    machine_name := "H1" }

/-- The session row created by alice's acquisition. -/
def sessionAlice : Session :=
  { sid := 1, user_id := 7, username := "alice", machine_name := "H1",
    is_write_lock := true, session_start := 0, last_heartbeat := 0 }

/-- World in which alice holds the lock and the row is present. -/
def worldHeld : World :=
  { db := { sessions := [sessionAlice], users := [], nextSessionId := 2 },
    lock_file_exists := true, lm := lmHolding, events := [] }

/-- World in which alice still believes she holds the lock but her
session row has been removed by another actor. -/
def worldLost : World :=
  { db := { sessions := [], users := [], nextSessionId := 2 },
    lock_file_exists := true, lm := lmHolding, events := [] }

/-- Unlocked world: no rows, no file, idle local state. -/
def worldIdle : World :=
  { db := { sessions := [], users := [], nextSessionId := 1 },
    lock_file_exists := false, lm := lmIdle, events := [] }

/-- World seen by another actor: alice's row is present but its
heartbeat froze at 0, and the file marker is still there. -/
def worldLost2 : World :=
  { db := { sessions := [sessionAlice], users := [], nextSessionId := 2 },
    lock_file_exists := true, lm := lmIdle, events := [] }

/-- Data-layer state whose attached lock manager just lost its row. -/
def appWorldLost : AppWorld :=
  { lock := worldLost, lock_manager_attached := true,
    buildings := [], nextBuildingId := 1, audit_log := [] }

/-- Data-layer state during bootstrap: no lock manager attached. -/
def appWorldBoot : AppWorld :=
  { lock := worldIdle, lock_manager_attached := false,
    buildings := [], nextBuildingId := 1, audit_log := [] }

/-- World containing an active `admin` user row, used to exercise the
shipped admin lookup. -/
def worldAdminAttempt : World :=
  { db := { sessions := [sessionAlice],
            users := [{ uid := 1, username := "admin",
                        display_name := "Administrator",
                        is_active := true, is_admin := true }],
            nextSessionId := 2 },
    lock_file_exists := true, lm := lmIdle, events := [] }

/-- Data-layer state with an attached manager whose verification fails
(alice's row is gone), and a stored user row for uid 1. -/
def appWorldPw : AppWorld :=
  { lock := { worldLost with
                db := { worldLost.db with
                          users := [{ uid := 1, username := "admin",
                                      display_name := "Administrator",
                                      is_active := true, is_admin := false }] } },
    lock_manager_attached := true,
    buildings := [], nextBuildingId := 1, audit_log := [] }

/-! ### Theorems -/

/-- The row dict built by the shipped `get_user_by_id` carries no
`is_admin` key, so `dict.get('is_admin')` yields `None`. -/
lemma shipped_dict_no_admin (a : Int) (b c : String) :
    dictGet [("id", PyVal.vInt a), ("username", PyVal.vStr b),
             ("display_name", PyVal.vStr c)] "is_admin" = PyVal.vNone := rfl

/-- Claim C9: for every `admin_user_id`, `force_unlock` backed by the
shipped `DatabaseManager.get_user_by_id` returns
`Denied("Only administrators can force unlock")` and mutates nothing,
because the lookup selects only `id`, `username` and `display_name`, so
the row dict's `is_admin` entry is always absent and the admin check is
always falsy. -/
theorem force_unlock_shipped_always_denied (admin_user_id : Nat) (w : World) :
    force_unlock_shipped admin_user_id w =
      (w, (false, "Only administrators can force unlock")) ∧
    (∀ d, get_user_by_id w.db admin_user_id = some d →
      dictGet d "is_admin" = PyVal.vNone) := by
  constructor
  · unfold force_unlock_shipped force_unlock get_user_by_id
    cases h : w.db.users.find? (fun u => u.uid == admin_user_id && u.is_active) with
    | none => rfl
    | some u => simp [shipped_dict_no_admin, PyVal.truthy]
  · intro d hd
    unfold get_user_by_id at hd
    cases h : w.db.users.find? (fun u => u.uid == admin_user_id && u.is_active) with
    | none => rw [h] at hd; exact absurd hd (by simp)
    | some u =>
        rw [h] at hd
        have : d = [("id", PyVal.vInt u.uid), ("username", PyVal.vStr u.username),
                    ("display_name", PyVal.vStr u.display_name)] := by
          simpa using hd.symm
        rw [this]
        exact shipped_dict_no_admin u.uid u.username u.display_name

/-- Claim C10: a storage error in the holder query is swallowed by
`_get_current_lock_holder`, which reports `None`; hence
`check_write_permission` called by a non-holder against a failing store
returns `(True, None)` — "write permitted, no holder" — rather than an
error. -/
theorem holder_fault_reports_permitted :
    (∀ db : DBState, get_current_lock_holder true db = none) ∧
    (∀ (cleanupFault : Bool) (now timeout : Int) (w : World),
      w.lm.has_write_lock = false →
      (check_write_permission cleanupFault true now timeout w).2 = (true, none)) := by
  constructor
  · intro db; rfl
  · intro cf now t w h
    unfold check_write_permission
    simp [h, get_current_lock_holder]

/-- Claim C10 witness: the dispossessed-free idle world against a
failing store. -/
theorem holder_fault_reports_permitted_witness :
    (check_write_permission false true 0 10 worldIdle).2 = (true, none) :=
  holder_fault_reports_permitted.2 false 0 10 worldIdle (by decide)

/-- Claim C7: `release_write_lock` is a total function of the state
(every delete failure is swallowed via the fault oracles), is a strict
no-op when the process does not hold the lock, always leaves the local
holding flag cleared, and calling it twice has the same effect as
calling it once. -/
theorem release_write_lock_spec :
    (∀ (fileFault dbFault : Bool) (w : World),
       w.lm.has_write_lock = false → release_write_lock fileFault dbFault w = w) ∧
    (∀ (fileFault dbFault : Bool) (w : World),
       (release_write_lock fileFault dbFault w).lm.has_write_lock = false) ∧
    (∀ (f1 d1 f2 d2 : Bool) (w : World),
       release_write_lock f2 d2 (release_write_lock f1 d1 w) =
         release_write_lock f1 d1 w) := by
  have hnoop : ∀ (fileFault dbFault : Bool) (w : World),
      w.lm.has_write_lock = false → release_write_lock fileFault dbFault w = w := by
    intro ff df w h
    unfold release_write_lock
    simp [h]
  have hclear : ∀ (fileFault dbFault : Bool) (w : World),
      (release_write_lock fileFault dbFault w).lm.has_write_lock = false := by
    intro ff df w
    unfold release_write_lock
    by_cases h : w.lm.has_write_lock = true
    · simp [h]
    · simp at h; simp [h]
  refine ⟨hnoop, hclear, ?_⟩
  intro f1 d1 f2 d2 w
  exact hnoop f2 d2 _ (hclear f1 d1 w)

/-- Claim C7 witness: releasing an idle manager changes nothing, and a
second release after a real release changes nothing. -/
theorem release_write_lock_spec_witness :
    release_write_lock false false worldIdle = worldIdle ∧
    release_write_lock false false (release_write_lock false false worldHeld) =
      release_write_lock false false worldHeld :=
  ⟨release_write_lock_spec.1 false false worldIdle (by decide),
   release_write_lock_spec.2.2 false false false false worldHeld⟩

/-- Claim C4: `verify_write_lock` returns false whenever the local
state does not mark the process as holding (flag unset or no session
id); when locally holding it re-queries the session row by its stored
id, returning true if the row still exists, and when the row is gone it
synchronously invokes `_handle_lock_lost` and returns false. -/
theorem verify_write_lock_spec (cbRaises : Bool) (w : World) :
    (w.lm.has_write_lock = false → verify_write_lock false cbRaises w = (w, false)) ∧
    (w.lm.current_session_id = none → verify_write_lock false cbRaises w = (w, false)) ∧
    (∀ sid, w.lm.has_write_lock = true → w.lm.current_session_id = some sid →
      sessionRowExists w.db sid = true →
      verify_write_lock false cbRaises w = (w, true)) ∧
    (∀ sid, w.lm.has_write_lock = true → w.lm.current_session_id = some sid →
      sessionRowExists w.db sid = false →
      verify_write_lock false cbRaises w = (handle_lock_lost cbRaises w, false)) := by
  refine ⟨?_, ?_, ?_, ?_⟩
  · intro h; simp [verify_write_lock, h]
  · intro h
    unfold verify_write_lock
    by_cases hw : w.lm.has_write_lock = true
    · simp [hw, h]
    · simp at hw; simp [hw]
  · intro sid h1 h2 h3; simp [verify_write_lock, h1, h2, h3]
  · intro sid h1 h2 h3; simp [verify_write_lock, h1, h2, h3]

/-- Claim C4 witness: a holder with its row intact verifies true; the
same holder with the row removed verifies false and lands in the
lock-lost state. -/
theorem verify_write_lock_spec_witness :
    verify_write_lock false false worldHeld = (worldHeld, true) ∧
    verify_write_lock false false worldLost =
      (handle_lock_lost false worldLost, false) :=
  ⟨(verify_write_lock_spec false worldHeld).2.2.1 1 (by decide) (by decide) (by decide),
   (verify_write_lock_spec false worldLost).2.2.2 1 (by decide) (by decide) (by decide)⟩

/-- The local state left by `_handle_lock_lost` is fully cleared,
whether or not a callback is registered. -/
lemma handle_lock_lost_lm (cbRaises : Bool) (w : World) :
    (handle_lock_lost cbRaises w).lm =
      { w.lm with
          heartbeat_running := false,
          has_write_lock := false,
          current_session_id := none,
          current_user_id := none,
          current_username := none } := by
  unfold handle_lock_lost
  by_cases h : w.lm.callback_set <;> simp [h]

/-- `_handle_lock_lost` removes the lock file. -/
lemma handle_lock_lost_file (cbRaises : Bool) (w : World) :
    (handle_lock_lost cbRaises w).lock_file_exists = false := by
  unfold handle_lock_lost
  by_cases h : w.lm.callback_set <;> simp [h]

/-- `_handle_lock_lost` does not touch the store. -/
lemma handle_lock_lost_db (cbRaises : Bool) (w : World) :
    (handle_lock_lost cbRaises w).db = w.db := by
  unfold handle_lock_lost
  by_cases h : w.lm.callback_set <;> simp [h]

/-- Claim C5: `_handle_lock_lost` stops the heartbeat, clears every
piece of local holding state strictly before the callback runs (the
callback observes the cleared state), removes the file marker, invokes
the registered callback exactly once with the superseded session id,
and completes identically whether or not the callback raises; once the
loss is handled, a later `verify_write_lock` or heartbeat tick changes
nothing and fires no further callback, and the heartbeat-tick discovery
path funnels into the same `_handle_lock_lost` routine. -/
theorem handle_lock_lost_once_spec :
    (∀ (cbRaises : Bool) (w : World),
      (handle_lock_lost cbRaises w).lm.has_write_lock = false ∧
      (handle_lock_lost cbRaises w).lm.current_session_id = none ∧
      (handle_lock_lost cbRaises w).lm.current_user_id = none ∧
      (handle_lock_lost cbRaises w).lm.current_username = none ∧
      (handle_lock_lost cbRaises w).lm.heartbeat_running = false ∧
      (handle_lock_lost cbRaises w).lock_file_exists = false ∧
      (handle_lock_lost cbRaises w).db = w.db) ∧
    (∀ (cbRaises : Bool) (w : World), w.lm.callback_set = true →
      (handle_lock_lost cbRaises w).events = w.events ++
        [{ arg := w.lm.current_session_id, seen_has_write_lock := false,
           seen_session_id := none, cb_raised := cbRaises }]) ∧
    (∀ w : World,
      (handle_lock_lost true w).lm = (handle_lock_lost false w).lm ∧
      (handle_lock_lost true w).db = (handle_lock_lost false w).db ∧
      (handle_lock_lost true w).lock_file_exists =
        (handle_lock_lost false w).lock_file_exists) ∧
    (∀ (cb cb2 qf : Bool) (now : Int) (w : World),
      verify_write_lock qf cb2 (handle_lock_lost cb w) = (handle_lock_lost cb w, false) ∧
      update_heartbeat qf cb2 now (handle_lock_lost cb w) = handle_lock_lost cb w) ∧
    (∀ (cbRaises : Bool) (now : Int) (w : World) (sid : Nat),
      w.lm.current_session_id = some sid → sessionRowExists w.db sid = false →
      update_heartbeat false cbRaises now w = handle_lock_lost cbRaises w) := by
  refine ⟨?_, ?_, ?_, ?_, ?_⟩
  · intro cb w
    refine ⟨?_, ?_, ?_, ?_, ?_, ?_, ?_⟩ <;>
      simp [handle_lock_lost_lm, handle_lock_lost_file, handle_lock_lost_db]
  · intro cb w h
    unfold handle_lock_lost
    simp [h]
  · intro w
    exact ⟨by simp [handle_lock_lost_lm], by simp [handle_lock_lost_db],
           by simp [handle_lock_lost_file]⟩
  · intro cb cb2 qf now w
    constructor
    · unfold verify_write_lock
      simp [handle_lock_lost_lm]
    · unfold update_heartbeat
      simp [handle_lock_lost_lm]
  · intro cb now w sid h1 h2
    unfold update_heartbeat
    simp [h1, h2]

/-- Claim C5 witness: alice's manager, whose row was removed remotely,
handles the loss once — a single callback event carrying her old
session id and observing the cleared state — and a subsequent verify
and heartbeat tick change nothing. -/
theorem handle_lock_lost_once_spec_witness :
    (handle_lock_lost false worldLost).events =
      [{ arg := some 1, seen_has_write_lock := false,
         seen_session_id := none, cb_raised := false }] ∧
    update_heartbeat false false 5 worldLost = handle_lock_lost false worldLost ∧
    verify_write_lock false false (handle_lock_lost false worldLost) =
      (handle_lock_lost false worldLost, false) :=
  ⟨by
    have h := handle_lock_lost_once_spec.2.1 false worldLost (by decide)
    simpa [worldLost, lmHolding] using h,
   handle_lock_lost_once_spec.2.2.2.2 false 5 worldLost 1 (by decide) (by decide),
   (handle_lock_lost_once_spec.2.2.2.1 false false false 5 worldLost).1⟩

/-- Closed form of `force_unlock` when the injected admin lookup
produced a truthy `is_admin`: the file and all write-lock rows are
removed, and the summary depends only on the file flag and the
write-lock row count. -/
lemma force_unlock_admin_eq (d : List (String × PyVal))
    (hadmin : (dictGet d "is_admin").truthy = true) (v : World) :
    force_unlock (some d) v =
      ({ v with
           lock_file_exists := false,
           db := { v.db with
                     sessions := v.db.sessions.filter (fun s => !s.is_write_lock) } },
       (true,
        if (v.lock_file_exists = false ∧
            (v.db.sessions.filter (fun s => s.is_write_lock)).length = 0)
        then "No locks found to remove"
        else "Removed: " ++ String.intercalate ", "
          ((if v.lock_file_exists then ["file lock"] else []) ++
           (if (v.db.sessions.filter (fun s => s.is_write_lock)).length > 0
            then [toString (v.db.sessions.filter (fun s => s.is_write_lock)).length ++
                  " database session(s)"]
            else [])))) := by
  unfold force_unlock
  by_cases hf : v.lock_file_exists <;>
    by_cases hn : (v.db.sessions.filter (fun s => s.is_write_lock)).length = 0 <;>
      simp [hadmin, hf, hn, Nat.pos_iff_ne_zero, List.isEmpty_eq_true]

/-- Claim C6: with an injected lookup whose row dict makes the admin
check truthy, `force_unlock` removes the lock file if present, deletes
every write-lock session row (leaving all other rows and state
untouched), and returns success with a summary naming exactly what was
removed, or the "nothing to remove" success result when nothing was
locked; the decision and message depend only on the file flag and the
write-lock row count, never on who holds the lock. -/
theorem force_unlock_admin_spec (d : List (String × PyVal)) (w : World)
    (hadmin : (dictGet d "is_admin").truthy = true) :
    force_unlock (some d) w =
      ({ w with
           lock_file_exists := false,
           db := { w.db with
                     sessions := w.db.sessions.filter (fun s => !s.is_write_lock) } },
       (true,
        if (w.lock_file_exists = false ∧
            (w.db.sessions.filter (fun s => s.is_write_lock)).length = 0)
        then "No locks found to remove"
        else "Removed: " ++ String.intercalate ", "
          ((if w.lock_file_exists then ["file lock"] else []) ++
           (if (w.db.sessions.filter (fun s => s.is_write_lock)).length > 0
            then [toString (w.db.sessions.filter (fun s => s.is_write_lock)).length ++
                  " database session(s)"]
            else [])))) ∧
    (∀ w2 : World, w2.lock_file_exists = w.lock_file_exists →
      (w2.db.sessions.filter (fun s => s.is_write_lock)).length =
        (w.db.sessions.filter (fun s => s.is_write_lock)).length →
      (force_unlock (some d) w2).2 = (force_unlock (some d) w).2) := by
  refine ⟨force_unlock_admin_eq d hadmin w, ?_⟩
  intro w2 hfile hcount
  rw [force_unlock_admin_eq d hadmin w2, force_unlock_admin_eq d hadmin w]
  simp [hfile, hcount]

/-- Claim C6 witness: an admin dict against alice's held lock removes
the file and her session and reports both removals. -/
theorem force_unlock_admin_spec_witness :
    force_unlock (some [("is_admin", PyVal.vInt 1)]) worldHeld =
      ({ worldHeld with
           lock_file_exists := false,
           db := { worldHeld.db with sessions := [] } },
       (true, "Removed: file lock, 1 database session(s)")) := by
  have h := (force_unlock_admin_spec [("is_admin", PyVal.vInt 1)] worldHeld (by decide)).1
  rw [h]
  rfl

/-- Closed form of a fault-free staleness sweep: exactly the stale
write-lock rows are deleted, and the file survives iff no stale row
existed. -/
lemma cleanup_stale_locks_eq (now timeout : Int) (w : World) :
    cleanup_stale_locks false now timeout w =
      { w with
          db := { w.db with
                    sessions := w.db.sessions.filter (fun s => !isStale now timeout s) },
          lock_file_exists :=
            (w.lock_file_exists &&
              (w.db.sessions.filter (isStale now timeout)).isEmpty) } := by
  unfold cleanup_stale_locks
  by_cases hst : (w.db.sessions.filter (isStale now timeout)).isEmpty
  · have hnil : w.db.sessions.filter (isStale now timeout) = [] := by
      simpa [List.isEmpty_iff] using hst
    have hself : w.db.sessions.filter (fun s => !isStale now timeout s) = w.db.sessions := by
      rw [List.filter_eq_self]
      intro a ha
      have := (List.filter_eq_nil_iff.mp hnil) a ha
      simpa using this
    simp [hst, hself]
  · simp [hst]

/-- Claim C8: the staleness sweep deletes exactly the write-lock rows
whose heartbeat is older than now minus the timeout, touches nothing
else, and removes the lock file marker iff at least one stale row was
deleted and the file existed; after a sweep that found a stale row and
in which every write-lock row was stale, a subsequent fault-free
acquire by the sweeping actor is granted. -/
theorem cleanup_stale_locks_spec (now timeout : Int) (w : World) :
    ((cleanup_stale_locks false now timeout w).db.sessions =
      w.db.sessions.filter (fun s => !isStale now timeout s)) ∧
    ((cleanup_stale_locks false now timeout w).lock_file_exists =
      (w.lock_file_exists && (w.db.sessions.filter (isStale now timeout)).isEmpty)) ∧
    ((cleanup_stale_locks false now timeout w).lock_file_exists ≠ w.lock_file_exists ↔
      (w.lock_file_exists = true ∧ w.db.sessions.filter (isStale now timeout) ≠ [])) ∧
    ((cleanup_stale_locks false now timeout w).db.users = w.db.users ∧
     (cleanup_stale_locks false now timeout w).db.nextSessionId = w.db.nextSessionId ∧
     (cleanup_stale_locks false now timeout w).lm = w.lm ∧
     (cleanup_stale_locks false now timeout w).events = w.events) ∧
    (∀ (now2 timeout2 : Int) (uid : Nat) (uname : String),
      (∃ s ∈ w.db.sessions, isStale now timeout s = true) →
      (∀ s ∈ w.db.sessions, s.is_write_lock = true → isStale now timeout s = true) →
      (acquire_write_lock false false none none now2 timeout2 uid uname
        (cleanup_stale_locks false now timeout w)).2 = AcqResult.granted) := by
  refine ⟨by rw [cleanup_stale_locks_eq], by rw [cleanup_stale_locks_eq],
          ?_, by rw [cleanup_stale_locks_eq]; exact ⟨rfl, rfl, rfl, rfl⟩, ?_⟩
  · rw [cleanup_stale_locks_eq]
    cases hl : w.lock_file_exists <;>
      cases hst : (w.db.sessions.filter (isStale now timeout)).isEmpty <;>
        simp_all [List.isEmpty_iff]
  · intro now2 timeout2 uid uname hex hall
    set w1 := cleanup_stale_locks false now timeout w with hw1
    -- no write-lock row survives the sweep
    have hsurv : w1.db.sessions.filter (fun s => s.is_write_lock) = [] := by
      rw [hw1, cleanup_stale_locks_eq]
      rw [List.filter_eq_nil_iff]
      intro a ha
      rcases List.mem_filter.mp ha with ⟨hmem, hkeep⟩
      intro hwl
      have := hall a hmem (by simpa using hwl)
      simp [this] at hkeep
    -- the stale filter at acquire time is also empty
    have hst2 : w1.db.sessions.filter (isStale now2 timeout2) = [] := by
      rw [List.filter_eq_nil_iff]
      intro a ha hstale2
      have hwl : a.is_write_lock = true := by
        have h2 := hstale2
        simp [isStale] at h2
        exact h2.1
      have := List.filter_eq_nil_iff.mp hsurv a ha
      simp [hwl] at this
    -- the sweep removed the file
    have hfile : w1.lock_file_exists = false := by
      rw [hw1, cleanup_stale_locks_eq]
      rcases hex with ⟨s, hmem, hstale⟩
      have : w.db.sessions.filter (isStale now timeout) ≠ [] := by
        intro hnil
        have := List.filter_eq_nil_iff.mp hnil s hmem
        simp [hstale] at this
      simp [List.isEmpty_iff, this]
    -- the acquire's own sweep is a no-op
    have hcl : cleanup_stale_locks false now2 timeout2 w1 = w1 := by
      unfold cleanup_stale_locks
      simp [hst2]
    -- nobody holds the lock
    have hheld : get_current_lock_holder false w1.db = none := by
      unfold get_current_lock_holder
      simp [hsurv]
    unfold acquire_write_lock
    simp [hcl, hheld, hfile]

/-- Claim C8 witness: a world whose only write-lock row froze its
heartbeat beyond the timeout is fully swept, and the sweeping actor's
subsequent acquire is granted. -/
theorem cleanup_stale_locks_spec_witness :
    (cleanup_stale_locks false 100 10 worldLost2).db.sessions = [] ∧
    (cleanup_stale_locks false 100 10 worldLost2).lock_file_exists = false ∧
    (acquire_write_lock false false none none 100 10 9 "bob"
      (cleanup_stale_locks false 100 10 worldLost2)).2 = AcqResult.granted := by
  have h := cleanup_stale_locks_spec 100 10 worldLost2
  refine ⟨?_, ?_, ?_⟩
  · rw [h.1]; rfl
  · rw [h.2.1]; rfl
  · exact h.2.2.2.2 100 10 9 "bob"
      ⟨sessionAlice, by decide, by decide⟩ (by decide)

/-- Claim C3 (amended): every mutating data-layer entry point that
routes through the gate — the CRUD operations, embedded here by
`create_building` and `delete_building`; the user-management writes
`create_user` and `set_user_password` never call the gate — runs
`_verify_write_permission` first; when verification fails the call
raises the distinguished `DatabaseWriteError` and leaves the persisted
business data (rows and audit log) identical to its pre-call state;
while no lock manager is attached (bootstrap) the write is allowed
unconditionally; and the write-denied error is distinguishable from
any generic failure. -/
theorem write_gate_spec :
    (∀ (queryFault cbRaises : Bool) (name : String) (uid : Nat) (aw : AppWorld),
      aw.lock_manager_attached = true →
      (verify_write_lock queryFault cbRaises aw.lock).2 = false →
      (create_building queryFault cbRaises name uid aw).2 =
        Except.error (DBErr.writeError writeDeniedMsg) ∧
      (create_building queryFault cbRaises name uid aw).1.buildings = aw.buildings ∧
      (create_building queryFault cbRaises name uid aw).1.audit_log = aw.audit_log ∧
      (create_building queryFault cbRaises name uid aw).1.nextBuildingId =
        aw.nextBuildingId) ∧
    (∀ (queryFault cbRaises : Bool) (bid uid : Nat) (aw : AppWorld),
      aw.lock_manager_attached = true →
      (verify_write_lock queryFault cbRaises aw.lock).2 = false →
      (delete_building queryFault cbRaises bid uid aw).2 =
        Except.error (DBErr.writeError writeDeniedMsg) ∧
      (delete_building queryFault cbRaises bid uid aw).1.buildings = aw.buildings ∧
      (delete_building queryFault cbRaises bid uid aw).1.audit_log = aw.audit_log) ∧
    (∀ (queryFault cbRaises : Bool) (name : String) (uid : Nat) (aw : AppWorld),
      aw.lock_manager_attached = false →
      (create_building queryFault cbRaises name uid aw).2 =
        Except.ok aw.nextBuildingId ∧
      (create_building queryFault cbRaises name uid aw).1.buildings =
        aw.buildings ++ [{ bid := aw.nextBuildingId, property_name := name }]) ∧
    (∀ (queryFault cbRaises : Bool) (bid uid : Nat) (aw : AppWorld),
      aw.lock_manager_attached = false →
      (delete_building queryFault cbRaises bid uid aw).2 = Except.ok () ∧
      (delete_building queryFault cbRaises bid uid aw).1.buildings =
        aw.buildings.filter (fun b => !(b.bid == bid))) ∧
    (∀ m1 m2 : String, DBErr.writeError m1 ≠ DBErr.generic m2) := by
  refine ⟨?_, ?_, ?_, ?_, ?_⟩
  · intro qf cb name uid aw hatt hver
    refine ⟨?_, ?_, ?_, ?_⟩ <;>
      simp [create_building, verify_write_permission, hatt, hver]
  · intro qf cb bid uid aw hatt hver
    refine ⟨?_, ?_, ?_⟩ <;>
      simp [delete_building, verify_write_permission, hatt, hver]
  · intro qf cb name uid aw hatt
    refine ⟨?_, ?_⟩ <;>
      simp [create_building, verify_write_permission, hatt]
  · intro qf cb bid uid aw hatt
    refine ⟨?_, ?_⟩ <;>
      simp [delete_building, verify_write_permission, hatt]
  · intro m1 m2 h
    exact DBErr.noConfusion h

/-- Claim C3 witness: against alice's manager after her row vanished,
a create is rejected with `DatabaseWriteError` and the data is
untouched; before any lock manager is attached the same create is
allowed. -/
theorem write_gate_spec_witness :
    (create_building false false "B1" 7 appWorldLost).2 =
      Except.error (DBErr.writeError writeDeniedMsg) ∧
    (create_building false false "B1" 7 appWorldLost).1.buildings =
      appWorldLost.buildings ∧
    (create_building false false "B1" 7 appWorldBoot).2 = Except.ok 1 := by
  have h1 := write_gate_spec.1 false false "B1" 7 appWorldLost (by decide)
    (by decide)
  have h3 := write_gate_spec.2.2.1 false false "B1" 7 appWorldBoot (by decide)
  exact ⟨h1.1, h1.2.1, h3.1⟩

/-- Claim C3 counterexample: `set_user_password` is a mutating
data-layer entry point that never calls `_verify_write_permission`:
with a lock manager attached and gate verification failing, it still
mutates the persisted users table and reports success instead of
raising `DatabaseWriteError` and leaving the data unchanged. -/
theorem set_user_password_bypasses_gate :
    appWorldPw.lock_manager_attached = true ∧
    (verify_write_lock false false appWorldPw.lock).2 = false ∧
    (set_user_password "newhash" 1 appWorldPw).2 = true ∧
    (set_user_password "newhash" 1 appWorldPw).1.lock.db.users ≠
      appWorldPw.lock.db.users := by
  refine ⟨rfl, by decide, by decide, by decide⟩

/-- Claim C9 witness: uid 1 is a stored, active user, yet the shipped
force unlock denies it and the looked-up row dict has no `is_admin`
entry. -/
theorem force_unlock_shipped_always_denied_witness :
    force_unlock_shipped 1 worldAdminAttempt =
      (worldAdminAttempt, (false, "Only administrators can force unlock")) ∧
    dictGet [("id", PyVal.vInt 1), ("username", PyVal.vStr "admin"),
             ("display_name", PyVal.vStr "Administrator")] "is_admin" = PyVal.vNone :=
  ⟨(force_unlock_shipped_always_denied 1 worldAdminAttempt).1,
   (force_unlock_shipped_always_denied 1 worldAdminAttempt).2
     [("id", PyVal.vInt 1), ("username", PyVal.vStr "admin"),
      ("display_name", PyVal.vStr "Administrator")] (by decide)⟩

/-- Claim C2: on a fault-free store, `acquire_write_lock` performs
exactly the fixed sequence: staleness sweep first (every outcome below
is phrased on the post-sweep state); then the holder query, denying
with the holder's username and machine when a holder row exists; then
the file check/create, denying when the marker already exists; then the
session insert, removing the just-created marker and denying with the
cause when the insert fails; and only when all steps succeed does it
set the local holding state, start the heartbeat, and return Granted
with the new row inserted. -/
theorem acquire_write_lock_spec (insertErr : Option String) (now timeout : Int)
    (uid : Nat) (uname : String) (w : World) :
    (∀ h, get_current_lock_holder false (cleanup_stale_locks false now timeout w).db = some h →
      acquire_write_lock false false none insertErr now timeout uid uname w =
        (cleanup_stale_locks false now timeout w,
         AcqResult.denied ("Database is locked by " ++ h.username ++ " on " ++
           h.machine_name))) ∧
    (get_current_lock_holder false (cleanup_stale_locks false now timeout w).db = none →
      (cleanup_stale_locks false now timeout w).lock_file_exists = true →
      acquire_write_lock false false none insertErr now timeout uid uname w =
        (cleanup_stale_locks false now timeout w,
         AcqResult.denied "Lock file already exists")) ∧
    (∀ e, get_current_lock_holder false (cleanup_stale_locks false now timeout w).db = none →
      (cleanup_stale_locks false now timeout w).lock_file_exists = false →
      insertErr = some e →
      acquire_write_lock false false none insertErr now timeout uid uname w =
        ({ cleanup_stale_locks false now timeout w with lock_file_exists := false },
         AcqResult.denied ("Failed to create database session: " ++ e))) ∧
    (get_current_lock_holder false (cleanup_stale_locks false now timeout w).db = none →
      (cleanup_stale_locks false now timeout w).lock_file_exists = false →
      insertErr = none →
      acquire_write_lock false false none insertErr now timeout uid uname w =
        ({ cleanup_stale_locks false now timeout w with
             lock_file_exists := true,
             db := { (cleanup_stale_locks false now timeout w).db with
                       sessions := (cleanup_stale_locks false now timeout w).db.sessions ++
                         [{ sid := (cleanup_stale_locks false now timeout w).db.nextSessionId,
                            user_id := uid, username := uname,
                            machine_name :=
                              (cleanup_stale_locks false now timeout w).lm.machine_name,
                            is_write_lock := true,
                            session_start := now, last_heartbeat := now }],
                       nextSessionId :=
                         (cleanup_stale_locks false now timeout w).db.nextSessionId + 1 },
             lm := { (cleanup_stale_locks false now timeout w).lm with
                       current_session_id :=
                         some (cleanup_stale_locks false now timeout w).db.nextSessionId,
                       current_user_id := some uid,
                       current_username := some uname,
                       has_write_lock := true,
                       heartbeat_running := true } },
         AcqResult.granted)) := by
  set w1 := cleanup_stale_locks false now timeout w with hw1
  refine ⟨?_, ?_, ?_, ?_⟩
  · intro h hh
    unfold acquire_write_lock
    rw [← hw1]
    simp [hh]
  · intro hh hf
    unfold acquire_write_lock
    rw [← hw1]
    simp [hh, hf]
  · intro e hh hf he
    unfold acquire_write_lock
    rw [← hw1]
    simp [hh, hf, he]
  · intro hh hf he
    unfold acquire_write_lock
    rw [← hw1]
    simp [hh, hf, he]

/-- Claim C2 witness: a second caller is denied by the holder query
against alice's held lock, and a fault-free acquire on the idle world
is granted. -/
theorem acquire_write_lock_spec_witness :
    acquire_write_lock false false none none 0 10 9 "bob" worldHeld =
      (cleanup_stale_locks false 0 10 worldHeld,
       AcqResult.denied "Database is locked by alice on H1") ∧
    (acquire_write_lock false false none none 0 10 7 "alice" worldIdle).2 =
      AcqResult.granted := by
  constructor
  · have h := (acquire_write_lock_spec none 0 10 9 "bob" worldHeld).1
      sessionAlice (by decide)
    rw [h]
    rfl
  · have h := (acquire_write_lock_spec none 0 10 7 "alice" worldIdle).2.2.2
      (by decide) (by decide) rfl
    rw [h]

/-- Claim C1 counterexample: under the interleaving in which all five
racing callers pass the `os.path.exists` check before any of them runs
`open(path, 'w')` — which succeeds even when the file already exists,
because the create is not an atomic exclusive create — every one of
the five calls returns Granted, so it is false that exactly one does. -/
theorem race_acquire_all_granted :
    grantedCount (runSchedule 0 10 badSchedule raceInit5) = 5 ∧
    grantedCount (runSchedule 0 10 badSchedule raceInit5) ≠ 1 := by
  constructor
  · decide
  · decide

/-- When the shared state already carries a fresh holder row, every
further serialized acquire is denied at the holder query and leaves
the shared state untouched. -/
lemma runAcquireSeq_all_denied (now timeout : Int) (sh : Shared) (h0 : Session)
    (hstale : sh.db.sessions.filter (isStale now timeout) = [])
    (hheld : get_current_lock_holder false sh.db = some h0) :
    ∀ ps : List ProcState, (∀ p ∈ ps, p.pc = APc.pcStart) →
      runAcquireSeq now timeout sh ps =
        (sh, ps.map (fun p => { p with pc := APc.pcDone false }))
  | [] => by intro _; simp [runAcquireSeq]
  | p :: ps => by
      intro hpc
      have hp : p.pc = APc.pcStart := hpc p (List.mem_cons_self p ps)
      have ih := runAcquireSeq_all_denied now timeout sh h0 hstale hheld ps
        (fun q hq => hpc q (List.mem_cons_of_mem p hq))
      unfold runAcquireSeq
      simp [procStep, hp, hstale, hheld, ih]

/-- Claim C1 (amended): when the acquire calls are serialized — each
caller completes its holder query, file check and create/insert before
the next starts — exactly one of any number of callers (five or more
included) is granted and all the others are denied; under overlapping
interleavings this fails, because the marker creation is a
non-atomic existence check followed by an unconditional `open('w')`
rather than an atomic exclusive create. -/
theorem seq_acquire_exactly_one_granted (now timeout : Int) (ht : 0 ≤ timeout)
    (t0 : Nat × String × String) (ts : List (Nat × String × String)) :
    grantedCountList
      (runAcquireSeq now timeout emptyShared
        ((t0 :: ts).map (fun t => initProc t.1 t.2.1 t.2.2))).2 = 1 := by
  have hfirst :
      runAcquireSeq now timeout emptyShared
        ((t0 :: ts).map (fun t => initProc t.1 t.2.1 t.2.2)) =
      (let row : Session :=
         { sid := 1, user_id := t0.1, username := t0.2.1, machine_name := t0.2.2,
           is_write_lock := true, session_start := now, last_heartbeat := now }
       let sh3 : Shared :=
         { db := { sessions := [row], users := [], nextSessionId := 2 },
           lock_file_exists := true }
       let rr := runAcquireSeq now timeout sh3 (ts.map (fun t => initProc t.1 t.2.1 t.2.2))
       (rr.1, { initProc t0.1 t0.2.1 t0.2.2 with
                  pc := APc.pcDone true, has_write_lock := true,
                  current_session_id := some 1 } :: rr.2)) := rfl
  rw [hfirst]
  set row : Session :=
    { sid := 1, user_id := t0.1, username := t0.2.1, machine_name := t0.2.2,
      is_write_lock := true, session_start := now, last_heartbeat := now } with hrow
  set sh3 : Shared :=
    { db := { sessions := [row], users := [], nextSessionId := 2 },
      lock_file_exists := true } with hsh3
  have hnotstale : isStale now timeout row = false := by
    rw [hrow]
    simp [isStale]
    omega
  have hstale : sh3.db.sessions.filter (isStale now timeout) = [] := by
    rw [hsh3]
    simp [hnotstale]
  have hheld : get_current_lock_holder false sh3.db = some row := by
    rw [hsh3, hrow]
    simp [get_current_lock_holder, pickLatest]
  have hall := runAcquireSeq_all_denied now timeout sh3 row hstale hheld
    (ts.map (fun t => initProc t.1 t.2.1 t.2.2))
    (by intro p hp; rcases List.mem_map.mp hp with ⟨t, _, rfl⟩; rfl)
  simp only [hall]
  have hnone :
      ((ts.map (fun t => initProc t.1 t.2.1 t.2.2)).map
          (fun p => { p with pc := APc.pcDone false })).filter
        (fun p => p.pc == APc.pcDone true) = [] := by
    rw [List.filter_eq_nil_iff]
    intro a ha
    rcases List.mem_map.mp ha with ⟨p, _, rfl⟩
    simp
  simp [grantedCountList, List.filter_cons, initProc, hnone]
  intro a x x1 x2 hmem heq
  subst heq
  simp

/-- Claim C1 (amended) witness: five serialized callers, exactly one
granted. -/
theorem seq_acquire_exactly_one_granted_witness :
    grantedCountList
      (runAcquireSeq 0 10 emptyShared
        ([((1 : Nat), "a", "m1"), (2, "b", "m2"), (3, "c", "m3"), (4, "d", "m4"),
          (5, "e", "m5")].map (fun t => initProc t.1 t.2.1 t.2.2))).2 = 1 :=
  seq_acquire_exactly_one_granted 0 10 (by decide) (1, "a", "m1")
    [(2, "b", "m2"), (3, "c", "m3"), (4, "d", "m4"), (5, "e", "m5")]

end WeeklyLock
